import Mathlib

/-!
Shallow embedding of `src/user_db_manager.py` (class `UserDBManager`),
the credential-record store of the auth1n repository.

Modelling conventions:
* The S3 bucket is an association list from object key to the stored JSON
  document.  `put_object` replaces the whole object, `get_object` returns it
  or fails, `delete_object` removes it; storage failures (network errors) are
  outside the model, so backend calls always succeed.
* A stored JSON document holds at most the four keys `_id`, `hash_string`,
  `secured_user_string`, `created_on`; a `RecordData` of four `Option` fields
  models such a dict (a `none` field models an absent key, the all-`none`
  value models the empty dict `{}` that `_read_from_s3` yields on a missing
  object).
* argon2 `PasswordHasher.hash` draws a fresh salt on each call; the salt is
  an explicit `Nat` parameter and the digest is modelled abstractly as the
  constructor `HashStr.argon salt msg`, keeping the argon2 contract:
  `verify` succeeds exactly on the hashed message, raises
  `VerifyMismatchError` on a different message and `InvalidHashError` on a
  string that is not an argon2 digest (such as the `''` placeholder).
  One-way-ness and the textual digest format are abstracted away.
* `json.dumps` applied to a `str` is modelled as wrapping in double quotes;
  escaping of special characters is elided, which preserves the property the
  proofs use: the serialization is injective.
* `shortuuid`/`uuid4` fresh values (`generate_secured_string`,
  `datetime.now().isoformat()`) are explicit parameters `token`, `now`.
* Python exceptions that escape a method (`KeyError`, `TypeError`) are the
  `PyResult.raised` constructor; a normal return is `PyResult.returned`.
* Python truthiness of an optional string (`if not x`) is `optFalsy`:
  `None` and `''` are falsy.
-/

/-- An argon2 hash string as stored in the `hash_string` field: either an
opaque non-digest string (`raw`, e.g. the `''` placeholder written by
`initialize_db`) or a digest produced by `PasswordHasher.hash` with a given
salt over a given message. -/
inductive HashStr where
  | raw (s : String)
  | argon (salt : Nat) (msg : String)
deriving DecidableEq

/-- The JSON document stored per user: a dict with at most the four keys
written by the code.  `none` models an absent key. -/
structure RecordData where
  rid : Option String
  hash_string : Option HashStr
  secured_user_string : Option String
  created_on : Option String
deriving DecidableEq

/-- The empty dict `{}` (what `_read_from_s3` returns when the object is
missing). -/
def emptyData : RecordData := ⟨none, none, none, none⟩

/-- Python truthiness test `not data` on a dict restricted to the four keys:
true iff no key is present. -/
def dataIsEmpty (d : RecordData) : Bool :=
  d.rid.isNone && d.hash_string.isNone && d.secured_user_string.isNone && d.created_on.isNone

/-- The S3 bucket: object key ↦ stored document. -/
abbrev S3Bucket := List (String × RecordData)

/-- `get_object`: the document stored under `key`, if any. -/
def s3Get (st : S3Bucket) (key : String) : Option RecordData :=
  match st with
  | [] => none
  | (k, d) :: rest => if k = key then some d else s3Get rest key

/-- `put_object`: full-object replace of the document under `key`. -/
def s3Put (st : S3Bucket) (key : String) (d : RecordData) : S3Bucket :=
  (key, d) :: st.filter (fun kv => kv.1 ≠ key)

/-- `delete_object`: remove the document under `key`. -/
def s3Delete (st : S3Bucket) (key : String) : S3Bucket :=
  st.filter (fun kv => kv.1 ≠ key)

/-- `req.get(k)` on a Python dict of strings, modelled on an association
list. -/
def dget (req : List (String × String)) (k : String) : Option String :=
  match req with
  | [] => none
  | (k', v) :: rest => if k' = k then some v else dget rest k

/-- Python truthiness of an optional string: `None` and `''` are falsy. -/
def optFalsy : Option String → Bool
  | none => true
  | some s => s == ""

/-- `all(req.values())`: every value of the request dict is a non-empty
string. -/
def allValuesTruthy (req : List (String × String)) : Bool :=
  req.all (fun kv => !(kv.2 == ""))

/-- `self.__file_name = f"user_db_{uid}"`. -/
def file_name (uid : String) : String := "user_db_" ++ uid

/-- `json.dumps` on a `str` (escaping elided; injective like the
original). -/
def json_dumps_str (s : String) : String := "\"" ++ s ++ "\""

/-- `UserDBManager.hash_user_string`: argon2 hash of the serialized string,
with the fresh salt made explicit. -/
def hash_user_string (salt : Nat) (user_string : String) : HashStr :=
  .argon salt user_string

/-- Outcome of `argon2.PasswordHasher.verify`. -/
inductive ArgonOutcome where
  | ok
  | verifyMismatch
  | invalidHash
deriving DecidableEq

/-- `PasswordHasher.verify stored candidate` per the argon2 contract (hash
collisions abstracted away): succeeds on the hashed message, raises
`VerifyMismatchError` on any other message, raises `InvalidHashError` when
`stored` is not an argon2 digest. -/
def argon_verify (stored : HashStr) (candidate : String) : ArgonOutcome :=
  match stored with
  | .raw _ => .invalidHash
  | .argon _ msg => if msg = candidate then .ok else .verifyMismatch

/-- A Python call result: a normal return or an uncaught exception. -/
inductive PyResult (α : Type) where
  | raised (e : String)
  | returned (v : α)
deriving DecidableEq

/-- `UserDBManager.serialize_data`: `json.dumps(req['request_string'])`, or
`KeyError` when the key is absent. -/
def serialize_data (req : List (String × String)) : PyResult String :=
  match dget req "request_string" with
  | some v => .returned (json_dumps_str v)
  | none => .raised "KeyError"

/-- `UserDBManager.initialize_db`: write the placeholder document (all four
keys mapped to `''`) under the instance's file name. -/
def initialize_db (st : S3Bucket) (uid : String) : S3Bucket :=
  s3Put st (file_name uid) ⟨some "", some (.raw ""), some "", some ""⟩

/-- `UserDBManager._read_from_s3`: the stored document, or `{}` when the
object is missing. -/
def read_from_s3 (st : S3Bucket) (key : String) : RecordData :=
  (s3Get st key).getD emptyData

/-- `UserDBManager.db_file_exists`: `head_object` succeeds iff the object is
present. -/
def db_file_exists (st : S3Bucket) (uid : String) : Bool :=
  (s3Get st (file_name uid)).isSome

/-- `UserDBManager.store_user_string self req` for the instance with id
`uid`, at bucket state `st`; `salt`, `token`, `now` are the fresh argon2
salt, the fresh `generate_secured_string` output and the current timestamp.
Returns the Python result (`None`, `{"id": uid}` — modelled by its id — or a
`KeyError`) together with the new bucket state. -/
def store_user_string (st : S3Bucket) (uid : String) (req : List (String × String))
    (salt : Nat) (token now : String) : PyResult (Option String) × S3Bucket :=
  if !(allValuesTruthy req) then (.returned none, st)
  else
    match serialize_data req with
    | .raised e => (.raised e, st)
    | .returned serialised_data =>
      let user_hash := hash_user_string salt serialised_data
      let data := read_from_s3 st (file_name uid)
      let data' : RecordData :=
        { data with hash_string := some user_hash,
                    secured_user_string := some token,
                    rid := some uid,
                    created_on := some now }
      let st' := s3Put st (file_name uid) data'
      if uid = "" then (.returned none, st') else (.returned (some uid), st')

/-- The distinct messages `UserDBManager.verify_user` can return. -/
inductive VerifyResult where
  | uidNotProvided
  | noDatabase
  | hashNotFound
  | mismatchMsg
  | successful
  | retNone
  | errorDuring
deriving DecidableEq

/-- `UserDBManager.display_user_db`: the parsed document, or the
no-database message (modelled as `Sum.inl`). -/
def display_user_db (st : S3Bucket) (user_id : String) : Sum String RecordData :=
  match s3Get st (file_name user_id) with
  | some d => .inr d
  | none => .inl "No database found for UID"

/-- `UserDBManager.verify_user`: read the record named by `req['uid']` and
verify `req['request_string']` against its stored argon2 hash.  A missing
`request_string` key raises `KeyError`; an `InvalidHashError` from argon2 is
caught by the generic handler and reported as the error message. -/
def verify_user (st : S3Bucket) (req : List (String × String)) :
    PyResult VerifyResult :=
  let user_id := dget req "uid"
  if optFalsy user_id then .returned .uidNotProvided
  else
    match serialize_data req with
    | .raised e => .raised e
    | .returned user_string =>
      match display_user_db st (user_id.getD "") with
      | .inl _ => .returned .noDatabase
      | .inr user_data =>
        match user_data.hash_string with
        | none => .returned .hashNotFound
        | some user_hash =>
          match argon_verify user_hash user_string with
          | .verifyMismatch => .returned .mismatchMsg
          | .invalidHash => .returned .errorDuring
          | .ok => .returned .successful

/-- The distinct messages `UserDBManager.check_sus_integrity` can return. -/
inductive IntegrityResult where
  | dbmNotFound
  | stringNotFound
  | success
  | integrityFailed
deriving DecidableEq

/-- `UserDBManager.check_sus_integrity self req` for the instance with id
`selfUid`: raises `TypeError` when both `req['uid']` and
`req['secured_user_string']` are falsy, otherwise reads the instance's own
document and compares its `secured_user_string` with the candidate
(`'' == None` is false, as in Python). -/
def check_sus_integrity (st : S3Bucket) (selfUid : String)
    (req : List (String × String)) : PyResult IntegrityResult :=
  let get_user_id := dget req "uid"
  let get_secured_user_string := dget req "secured_user_string"
  if optFalsy get_user_id && optFalsy get_secured_user_string then .raised "TypeError"
  else
    let data := read_from_s3 st (file_name selfUid)
    if dataIsEmpty data then .returned .dbmNotFound
    else
      match data.secured_user_string with
      | none => .returned .stringNotFound
      | some stored =>
        if get_secured_user_string = some stored then .returned .success
        else .returned .integrityFailed

/-- `UserDBManager.recover_account self req` for the instance with id
`selfUid`: on success returns `{"id": req['_id'], "sus": token}` (modelled as
the pair) and rewrites the instance's own document with a fresh hash of
`req['user_string']`, the fresh `token`, `_id := req['_id']` and the fresh
timestamp `now`; returns `None` and leaves the bucket unchanged when a
request field is falsy or the document is missing. -/
def recover_account (st : S3Bucket) (selfUid : String) (req : List (String × String))
    (salt : Nat) (token now : String) : Option (String × String) × S3Bucket :=
  let get_uid := dget req "_id"
  let user_string := dget req "user_string"
  if optFalsy get_uid || optFalsy user_string then (none, st)
  else
    let data := read_from_s3 st (file_name selfUid)
    if dataIsEmpty data then (none, st)
    else
      let serialized_data := json_dumps_str (user_string.getD "")
      let user_hash := hash_user_string salt serialized_data
      let data' : RecordData :=
        { data with hash_string := some user_hash,
                    secured_user_string := some token,
                    rid := some (get_uid.getD ""),
                    created_on := some now }
      (some (get_uid.getD "", token), s3Put st (file_name selfUid) data')

/-- The distinct messages `UserDBManager.close_account` can return. -/
inductive CloseResult where
  | dbmNotFound
  | userNotFound
  | susMismatch
  | success
deriving DecidableEq

/-- `UserDBManager.close_account self req` for the instance with id
`selfUid`: raises `KeyError` when `req['uid']` or `req['sus']` is falsy;
otherwise reads the instance's own document, compares its
`secured_user_string` with the candidate, and on a match deletes the object
named by `req['uid']`. -/
def close_account (st : S3Bucket) (selfUid : String)
    (req : List (String × String)) : PyResult CloseResult × S3Bucket :=
  let user_id := dget req "uid"
  let secured_user_string := dget req "sus"
  if optFalsy user_id || optFalsy secured_user_string then (.raised "KeyError", st)
  else
    let data := read_from_s3 st (file_name selfUid)
    if dataIsEmpty data then (.returned .dbmNotFound, st)
    else
      match data.secured_user_string with
      | none => (.returned .userNotFound, st)
      | some db_secured =>
        if secured_user_string ≠ some db_secured then (.returned .susMismatch, st)
        else (.returned .success, s3Delete st (file_name (user_id.getD "")))

/-! ## Basic backend lemmas -/

theorem s3Get_put_same (st : S3Bucket) (k : String) (d : RecordData) :
    s3Get (s3Put st k d) k = some d := by
  simp [s3Get, s3Put]

theorem s3Get_delete_same (st : S3Bucket) (k : String) :
    s3Get (s3Delete st k) k = none := by
  induction st with
  | nil => rfl
  | cons hd tl ih =>
    unfold s3Delete at ih ⊢
    by_cases h : hd.1 = k
    · simpa [List.filter_cons, h] using ih
    · simpa [List.filter_cons, h, s3Get] using ih

theorem json_dumps_str_inj {s t : String} (h : json_dumps_str s = json_dumps_str t) :
    s = t := by
  unfold json_dumps_str at h
  have h2 : ("\"" ++ s ++ "\"").data = ("\"" ++ t ++ "\"").data := by rw [h]
  simp [String.data_append] at h2
  exact String.ext h2

/-! ## Claims -/

/-- C9: on the empty request `{}`, `store_user_string` passes the
`all(req.values())` validation (vacuously true over zero values) and then
raises `KeyError` from `serialize_data` because `request_string` is absent,
instead of returning the `None` validation result; the bucket is not
written. -/
theorem store_empty_request_raises (st : S3Bucket) (uid : String)
    (salt : Nat) (token now : String) :
    store_user_string st uid [] salt token now = (.raised "KeyError", st) := rfl

/-- C4: a request containing at least one empty value is rejected by
`store_user_string`: it returns the `None` validation result and performs no
backend write, so the bucket (and any prior record in it) is unchanged. -/
theorem store_empty_value_rejected (st : S3Bucket) (uid : String)
    (req : List (String × String)) (salt : Nat) (token now : String)
    (h : ∃ kv ∈ req, kv.2 = "") :
    store_user_string st uid req salt token now = (.returned none, st) := by
  obtain ⟨kv, hmem, hv⟩ := h
  have hall : allValuesTruthy req = false := by
    unfold allValuesTruthy
    rw [List.all_eq_false]
    exact ⟨kv, hmem, by simp [hv]⟩
  simp [store_user_string, hall]

/-- Witness for C4 at a concrete input. -/
theorem store_empty_value_rejected_w :
    store_user_string [("user_db_u1", ⟨some "u1", some (.argon 0 "\"a\""), some "T", some "D"⟩)]
      "u1" [("request_string", "")] 0 "t" "n"
      = (.returned none,
         [("user_db_u1", ⟨some "u1", some (.argon 0 "\"a\""), some "T", some "D"⟩)]) :=
  store_empty_value_rejected _ "u1" _ 0 "t" "n" ⟨("request_string", ""), by simp, rfl⟩

/-- C7: when no record exists for the instance's id, `recover_account`
returns `None` (the not-found outcome) and performs no backend write: the
bucket is returned unchanged, whatever the request contents. -/
theorem recover_absent_noop (st : S3Bucket) (uid : String)
    (req : List (String × String)) (salt : Nat) (token now : String)
    (h : s3Get st (file_name uid) = none) :
    recover_account st uid req salt token now = (none, st) := by
  unfold recover_account
  by_cases h1 : (optFalsy (dget req "_id") || optFalsy (dget req "user_string")) = true
  · simp [h1]
  · simp [h1, read_from_s3, h, dataIsEmpty, emptyData]

/-- Witness for C7 at a concrete input. -/
theorem recover_absent_noop_w :
    recover_account [] "u1" [("_id", "u1"), ("user_string", "pw")] 0 "t" "n" = (none, []) :=
  recover_absent_noop [] "u1" _ 0 "t" "n" rfl

/-- C8: every backend write performed by `store_user_string` or
`recover_account` sets `hash_string` and `secured_user_string` in the same
document update (to the freshly computed hash and the freshly generated
token): each operation either leaves the bucket unchanged or writes a
document carrying both fresh fields, never one without the other. -/
theorem hash_and_token_updated_together (st : S3Bucket) (uid : String)
    (req : List (String × String)) (salt : Nat) (token now : String) :
    ((store_user_string st uid req salt token now).2 = st ∨
      ∃ m, (store_user_string st uid req salt token now).2 =
        s3Put st (file_name uid)
          ⟨some uid, some (hash_user_string salt m), some token, some now⟩) ∧
    ((recover_account st uid req salt token now).2 = st ∨
      ∃ i m, (recover_account st uid req salt token now).2 =
        s3Put st (file_name uid)
          ⟨some i, some (hash_user_string salt m), some token, some now⟩) := by
  constructor
  · by_cases hv : allValuesTruthy req = true
    · cases hs : serialize_data req with
      | raised e => left; simp [store_user_string, hv, hs]
      | returned sd =>
        right
        refine ⟨sd, ?_⟩
        by_cases hu : uid = ""
        · simp [store_user_string, hv, hs, hu]
        · simp [store_user_string, hv, hs, hu]
    · left; simp [store_user_string, Bool.of_not_eq_true hv]
  · by_cases h1 : (optFalsy (dget req "_id") || optFalsy (dget req "user_string")) = true
    · left; simp [recover_account, h1]
    · by_cases h2 : dataIsEmpty (read_from_s3 st (file_name uid)) = true
      · left; simp [recover_account, h1, h2]
      · right
        exact ⟨(dget req "_id").getD "", json_dumps_str ((dget req "user_string").getD ""),
          by simp [recover_account, h1, h2, hash_user_string]⟩

/-- C2 counterexample: on a freshly initialized (never stored) record the
placeholder `secured_user_string` is the present key `''`, not an absent
key, so `check_sus_integrity` with the empty-string candidate token reports
`Success` (a Match) — refuting the claim that it reports the field-missing
outcome and never Match. -/
theorem fresh_record_integrity_cex :
    check_sus_integrity (initialize_db [] "u1") "u1"
      [("uid", "u1"), ("secured_user_string", "")] = .returned .success := by decide

/-- C2 (amended): on a freshly initialized (never stored) record,
`check_sus_integrity` with a supplied non-empty uid reports Match
(`Success`) exactly when the candidate token is the empty string and
Mismatch (`integrityFailed`) otherwise (including an absent candidate); the
field-missing outcome is never reported, because `initialize_db` writes the
`secured_user_string` key with the placeholder `''` rather than leaving it
unset. -/
theorem fresh_record_integrity (st : S3Bucket) (selfUid u' : String)
    (req : List (String × String))
    (hu : dget req "uid" = some u') (hu' : u' ≠ "") :
    check_sus_integrity (initialize_db st selfUid) selfUid req =
      .returned (if dget req "secured_user_string" = some "" then .success
                 else .integrityFailed) := by
  simp [check_sus_integrity, hu, optFalsy, hu', initialize_db, read_from_s3,
    s3Get_put_same, dataIsEmpty]
  split <;> rfl

/-- Witness for the amended C2 at a concrete input. -/
theorem fresh_record_integrity_w :
    check_sus_integrity (initialize_db [] "u1") "u1"
      [("uid", "u1"), ("secured_user_string", "x")] = .returned .integrityFailed := by
  have h := fresh_record_integrity [] "u1" "u1"
    [("uid", "u1"), ("secured_user_string", "x")] (by decide) (by decide)
  rw [h]; decide

/-- C5 counterexample: with a record whose stored token is `"T"`, the
candidate token `""` differs from the stored token, yet `close_account`
raises `KeyError` (empty request values are rejected before the comparison)
instead of returning the distinct mismatch failure result — refuting the
claim for that candidate.  (The record is still left untouched.) -/
theorem close_empty_candidate_raises_cex :
    ("" : String) ≠ "T" ∧
    close_account
      [("user_db_u1", ⟨some "u1", some (.argon 0 "\"a\""), some "T", some "D"⟩)]
      "u1" [("uid", "u1"), ("sus", "")]
      = (.raised "KeyError",
         [("user_db_u1", ⟨some "u1", some (.argon 0 "\"a\""), some "T", some "D"⟩)]) :=
  ⟨by decide, by decide⟩

/-- C5 (amended): for a record with stored token `t`, `close_account` with a
supplied non-empty uid and a non-empty candidate token different from `t`
returns the distinct mismatch failure and performs no delete: the bucket is
unchanged, so the record stays retrievable with all fields intact.  (An
empty or missing candidate raises `KeyError` instead, also without
deleting.) -/
theorem close_wrong_token_no_delete (st : S3Bucket) (uid c t : String) (r : RecordData)
    (hr : s3Get st (file_name uid) = some r) (hsus : r.secured_user_string = some t)
    (hu : uid ≠ "") (hc : c ≠ "") (hne : c ≠ t) :
    close_account st uid [("uid", uid), ("sus", c)] = (.returned .susMismatch, st) := by
  simp [close_account, dget, optFalsy, hu, hc, read_from_s3, hr, dataIsEmpty, hsus, hne]

/-- Witness for the amended C5 at a concrete input. -/
theorem close_wrong_token_no_delete_w :
    close_account
      [("user_db_u1", ⟨some "u1", some (.argon 0 "\"a\""), some "T", some "D"⟩)]
      "u1" [("uid", "u1"), ("sus", "X")]
      = (.returned .susMismatch,
         [("user_db_u1", ⟨some "u1", some (.argon 0 "\"a\""), some "T", some "D"⟩)]) :=
  close_wrong_token_no_delete _ "u1" "X" "T"
    ⟨some "u1", some (.argon 0 "\"a\""), some "T", some "D"⟩ (by decide) rfl (by decide)
    (by decide) (by decide)

/-- C6 counterexample: a freshly initialized record stores the token `''`,
and `close_account` with the candidate `''` — equal to the stored token —
raises `KeyError` instead of returning success and deleting the record —
refuting the claim for records whose stored token is empty. -/
theorem close_fresh_empty_token_cex :
    (s3Get (initialize_db [] "u1") (file_name "u1")).map RecordData.secured_user_string
      = some (some "") ∧
    close_account (initialize_db [] "u1") "u1" [("uid", "u1"), ("sus", "")]
      = (.raised "KeyError", initialize_db [] "u1") :=
  ⟨by decide, by decide⟩

/-- C6 (amended): for a record whose stored token `t` is non-empty (as
produced by every successful store/recover), `close_account` with a supplied
uid and the candidate equal to `t` returns success and deletes the object,
so a subsequent backend get returns nothing and `db_file_exists` is false
for that id. -/
theorem close_correct_token_deletes (st : S3Bucket) (uid t : String) (r : RecordData)
    (hr : s3Get st (file_name uid) = some r) (hsus : r.secured_user_string = some t)
    (hu : uid ≠ "") (ht : t ≠ "") :
    (close_account st uid [("uid", uid), ("sus", t)]).1 = .returned .success ∧
    s3Get (close_account st uid [("uid", uid), ("sus", t)]).2 (file_name uid) = none ∧
    db_file_exists (close_account st uid [("uid", uid), ("sus", t)]).2 uid = false := by
  have hclose : close_account st uid [("uid", uid), ("sus", t)]
      = (.returned .success, s3Delete st (file_name uid)) := by
    simp [close_account, dget, optFalsy, hu, ht, read_from_s3, hr, dataIsEmpty, hsus]
  rw [hclose]
  exact ⟨rfl, s3Get_delete_same st (file_name uid),
    by simp [db_file_exists, s3Get_delete_same]⟩

/-- Witness for the amended C6 at a concrete input. -/
theorem close_correct_token_deletes_w :
    (close_account
        [("user_db_u1", ⟨some "u1", some (.argon 0 "\"a\""), some "T", some "D"⟩)]
        "u1" [("uid", "u1"), ("sus", "T")]).1 = .returned .success ∧
    s3Get (close_account
        [("user_db_u1", ⟨some "u1", some (.argon 0 "\"a\""), some "T", some "D"⟩)]
        "u1" [("uid", "u1"), ("sus", "T")]).2 (file_name "u1") = none ∧
    db_file_exists (close_account
        [("user_db_u1", ⟨some "u1", some (.argon 0 "\"a\""), some "T", some "D"⟩)]
        "u1" [("uid", "u1"), ("sus", "T")]).2 "u1" = false :=
  close_correct_token_deletes _ "u1" "T"
    ⟨some "u1", some (.argon 0 "\"a\""), some "T", some "D"⟩ (by decide) rfl (by decide)
    (by decide)

/-- C3 counterexample: `recover_account` writes `_id := req['_id']` rather
than preserving the stored value, so a successful recover whose request
`_id` (`"u2"`) differs from the record's stored `_id` (`"u1"`) changes the
record's id field — refuting the claim that every successful recover leaves
the id field unchanged. -/
theorem recover_foreign_id_cex :
    (recover_account
        [("user_db_u1", ⟨some "u1", some (.argon 0 "\"a\""), some "T", some "D"⟩)]
        "u1" [("_id", "u2"), ("user_string", "pw")] 1 "T2" "D2").1 = some ("u2", "T2") ∧
    (⟨some "u1", some (.argon 0 "\"a\""), some "T", some "D"⟩ : RecordData).rid
      = some "u1" ∧
    (s3Get (recover_account
        [("user_db_u1", ⟨some "u1", some (.argon 0 "\"a\""), some "T", some "D"⟩)]
        "u1" [("_id", "u2"), ("user_string", "pw")] 1 "T2" "D2").2 "user_db_u1").map
      RecordData.rid = some (some "u2") :=
  ⟨by decide, rfl, by decide⟩

/-- C3 (amended): when the request's `_id` equals the record's stored `_id`
(the normal call, where the manager id, record id and request id coincide),
a successful `recover_account` rewrites `hash_string`, `secured_user_string`
and `created_on` to the fresh values — changing each of them whenever the
fresh salt, token and timestamp differ from the stored ones — while the id
field keeps the value it had before the call. -/
theorem recover_same_id_preserves_id (st : S3Bucket) (uid w : String) (r : RecordData)
    (salt : Nat) (token now : String)
    (hr : s3Get st (file_name uid) = some r) (hid : r.rid = some uid)
    (hu : uid ≠ "") (hw : w ≠ "")
    (hh : r.hash_string ≠ some (hash_user_string salt (json_dumps_str w)))
    (hs : r.secured_user_string ≠ some token)
    (hc : r.created_on ≠ some now) :
    (recover_account st uid [("_id", uid), ("user_string", w)] salt token now).1
      = some (uid, token) ∧
    s3Get (recover_account st uid [("_id", uid), ("user_string", w)] salt token now).2
        (file_name uid)
      = some ⟨some uid, some (hash_user_string salt (json_dumps_str w)),
              some token, some now⟩ ∧
    (some uid : Option String) = r.rid ∧
    some (hash_user_string salt (json_dumps_str w)) ≠ r.hash_string ∧
    (some token : Option String) ≠ r.secured_user_string ∧
    (some now : Option String) ≠ r.created_on := by
  have hrec : recover_account st uid [("_id", uid), ("user_string", w)] salt token now
      = (some (uid, token),
         s3Put st (file_name uid)
           ⟨some uid, some (hash_user_string salt (json_dumps_str w)),
            some token, some now⟩) := by
    simp [recover_account, dget, optFalsy, hu, hw, read_from_s3, hr, dataIsEmpty, hid]
  rw [hrec]
  exact ⟨rfl, s3Get_put_same st (file_name uid) _, hid.symm,
    fun h => hh h.symm, fun h => hs h.symm, fun h => hc h.symm⟩

/-- Witness for the amended C3 at a concrete input. -/
theorem recover_same_id_preserves_id_w :
    (recover_account [("user_db_u1", ⟨some "u1", some (.raw ""), some "T", some "D"⟩)]
        "u1" [("_id", "u1"), ("user_string", "pw")] 0 "T2" "D2").1 = some ("u1", "T2") ∧
    s3Get (recover_account [("user_db_u1", ⟨some "u1", some (.raw ""), some "T", some "D"⟩)]
        "u1" [("_id", "u1"), ("user_string", "pw")] 0 "T2" "D2").2 (file_name "u1")
      = some ⟨some "u1", some (hash_user_string 0 (json_dumps_str "pw")),
              some "T2", some "D2"⟩ ∧
    (some "u1" : Option String)
      = (⟨some "u1", some (.raw ""), some "T", some "D"⟩ : RecordData).rid ∧
    some (hash_user_string 0 (json_dumps_str "pw"))
      ≠ (⟨some "u1", some (.raw ""), some "T", some "D"⟩ : RecordData).hash_string ∧
    (some "T2" : Option String)
      ≠ (⟨some "u1", some (.raw ""), some "T", some "D"⟩ : RecordData).secured_user_string ∧
    (some "D2" : Option String)
      ≠ (⟨some "u1", some (.raw ""), some "T", some "D"⟩ : RecordData).created_on :=
  recover_same_id_preserves_id _ "u1" "pw"
    ⟨some "u1", some (.raw ""), some "T", some "D"⟩ 0 "T2" "D2" (by decide) rfl (by decide)
    (by decide) (by decide) (by decide) (by decide)

/-- C1: storing a non-empty secret and then verifying the same secret for
the same id returns the success result, while verifying any different
candidate secret returns the mismatch result (and hence never success):
the stored argon2 hash matches exactly the serialization of the stored
secret. -/
theorem store_then_verify (st : S3Bucket) (uid S Sbad : String) (salt : Nat)
    (token now : String) (hS : S ≠ "") (hu : uid ≠ "") (hne : Sbad ≠ S) :
    verify_user (store_user_string st uid [("request_string", S)] salt token now).2
        [("uid", uid), ("request_string", S)] = .returned .successful ∧
    verify_user (store_user_string st uid [("request_string", S)] salt token now).2
        [("uid", uid), ("request_string", Sbad)] = .returned .mismatchMsg := by
  have hjd : json_dumps_str S ≠ json_dumps_str Sbad :=
    fun h => hne (json_dumps_str_inj h).symm
  have hst : (store_user_string st uid [("request_string", S)] salt token now).2
      = s3Put st (file_name uid)
          ⟨some uid, some (hash_user_string salt (json_dumps_str S)),
           some token, some now⟩ := by
    simp [store_user_string, allValuesTruthy, hS, serialize_data, dget, hu]
  rw [hst]
  constructor
  · simp [verify_user, dget, optFalsy, hu, serialize_data, display_user_db,
      s3Get_put_same, argon_verify, hash_user_string]
  · simp [verify_user, dget, optFalsy, hu, serialize_data, display_user_db,
      s3Get_put_same, argon_verify, hash_user_string, hjd]

/-- Witness for C1 at a concrete input. -/
theorem store_then_verify_w :
    verify_user (store_user_string [] "u1" [("request_string", "a")] 0 "t" "n").2
        [("uid", "u1"), ("request_string", "a")] = .returned .successful ∧
    verify_user (store_user_string [] "u1" [("request_string", "a")] 0 "t" "n").2
        [("uid", "u1"), ("request_string", "b")] = .returned .mismatchMsg :=
  store_then_verify [] "u1" "a" "b" 0 "t" "n" (by decide) (by decide) (by decide)

/-- C10: `check_sus_integrity` raises `TypeError` exactly when both
`req['uid']` and `req['secured_user_string']` are missing or falsy; when at
least one of the two is supplied it does not raise, but proceeds to read the
instance's stored document and compare its `secured_user_string` against the
candidate (reporting not-found / field-missing / match / mismatch
accordingly). -/
theorem integrity_raises_iff (st : S3Bucket) (selfUid : String)
    (req : List (String × String)) :
    ((∃ e, check_sus_integrity st selfUid req = .raised e) ↔
      (optFalsy (dget req "uid") = true ∧
       optFalsy (dget req "secured_user_string") = true)) ∧
    (optFalsy (dget req "uid") = false ∨
     optFalsy (dget req "secured_user_string") = false →
      check_sus_integrity st selfUid req = .returned
        (if dataIsEmpty (read_from_s3 st (file_name selfUid)) then .dbmNotFound
         else match (read_from_s3 st (file_name selfUid)).secured_user_string with
           | none => .stringNotFound
           | some stored =>
             if dget req "secured_user_string" = some stored then .success
             else .integrityFailed)) := by
  by_cases hg : (optFalsy (dget req "uid") && optFalsy (dget req "secured_user_string")) = true
  · rw [Bool.and_eq_true] at hg
    obtain ⟨h1, h2⟩ := hg
    constructor
    · constructor
      · intro _; exact ⟨h1, h2⟩
      · intro _
        refine ⟨"TypeError", ?_⟩
        simp [check_sus_integrity, h1, h2]
    · rintro (h | h)
      · simp [h1] at h
      · simp [h2] at h
  · have key : check_sus_integrity st selfUid req = .returned
        (if dataIsEmpty (read_from_s3 st (file_name selfUid)) then .dbmNotFound
         else match (read_from_s3 st (file_name selfUid)).secured_user_string with
           | none => .stringNotFound
           | some stored =>
             if dget req "secured_user_string" = some stored then .success
             else .integrityFailed) := by
      simp only [check_sus_integrity]
      rw [if_neg hg]
      split
      · rfl
      · split
        · rfl
        · split <;> rfl
    constructor
    · constructor
      · rintro ⟨e, he⟩
        rw [key] at he
        exact PyResult.noConfusion he
      · rintro ⟨h1, h2⟩
        exact absurd (by rw [h1, h2]; rfl) hg
    · intro _; exact key

/-- Witness for C10 at a concrete input (uid supplied, token absent: no
raise, the record lookup proceeds and reports its not-found outcome). -/
theorem integrity_raises_iff_w :
    check_sus_integrity [] "u1" [("uid", "u1")] = .returned .dbmNotFound := by
  have h := (integrity_raises_iff [] "u1" [("uid", "u1")]).2 (Or.inl (by decide))
  rw [h]; decide
